import Mathlib

/-!
Verification of the rt_soldering_pen heating engine and preset store.

Shallow embedding of src/src/preset.hpp and src/src/heating.hpp.
C++ `int` arithmetic is modelled with unbounded `Int`; C integer division
(truncation toward zero) is `Int.tdiv`.  Hardware singletons
(board::heater, board::adc) are modelled as explicit state: the heater is a
Bool field, the ADC measurement started by the engine is tracked in a mode
field, and the readings of a completed ADC measurement are an input to
`process`.
-/

/-! ## Preset store (src/src/preset.hpp) -/

def PRESETS : Int := 2

def NO_EDIT : Int := -1

def MIN_TEMPERATURE : Int := 20 * 1000

def MAX_TEMPERATURE : Int := 400 * 1000

def STANDBY_TEMPERATURE : Int := 0

/-- State of the preset store.  The C++ array `int _temperatures[2]` is the
two fields temp0, temp1. -/
structure Preset where
  temp0 : Int
  temp1 : Int
  selected : Int
  edited : Int
  standby : Bool
deriving DecidableEq

/-- Read of `_temperatures[i]`.  An index outside 0..1 is undefined
behaviour in the C++ source; the model returns 0 there. -/
def Preset.tempGet (p : Preset) (i : Int) : Int :=
  if i = 0 then p.temp0 else if i = 1 then p.temp1 else 0

/-- Write of `_temperatures[i]`.  An index outside 0..1 is undefined
behaviour in the C++ source; the model leaves the store unchanged there. -/
def Preset.tempSet (p : Preset) (i v : Int) : Preset :=
  if i = 0 then { p with temp0 := v } else if i = 1 then { p with temp1 := v } else p

/-- Initial preset state (member initializers of the C++ class). -/
def presetInit : Preset :=
  { temp0 := 300 * 1000, temp1 := 250 * 1000, selected := 0, edited := NO_EDIT, standby := true }

def Preset.set_standby (p : Preset) : Preset :=
  { p with standby := true }

def Preset.is_standby (p : Preset) : Bool :=
  p.standby

/-- Preset::select.  The guard is the one written in the source:
(preset < 0) && (preset >= PRESETS). -/
def Preset.select (p : Preset) (preset : Int) : Preset :=
  if preset < 0 ∧ preset ≥ PRESETS then p
  else { p with selected := preset, standby := false }

/-- Preset::edit_select, with the guard written in the source. -/
def Preset.edit_select (p : Preset) (preset : Int) : Preset :=
  if preset < 0 ∧ preset ≥ PRESETS then p
  else { p with edited := preset }

def Preset.edit_end (p : Preset) : Preset :=
  { p with edited := NO_EDIT }

def Preset.get_temperature (p : Preset) : Int :=
  if p.standby then STANDBY_TEMPERATURE else p.tempGet p.selected

def Preset.get_preset (p : Preset) (preset : Int) : Int :=
  p.tempGet preset

def Preset.get_selected (p : Preset) : Int :=
  p.selected

def Preset.get_edited (p : Preset) : Int :=
  p.edited

def Preset.is_editing (p : Preset) : Bool :=
  p.edited ≠ NO_EDIT

/-- Preset::edit_add: add, then two separate clamping ifs as in the source. -/
def Preset.edit_add (p : Preset) (val : Int) : Preset :=
  if p.edited = NO_EDIT then p
  else
    let p1 := p.tempSet p.edited (p.tempGet p.edited + val)
    let p2 := if p1.tempGet p1.edited < MIN_TEMPERATURE
              then p1.tempSet p1.edited MIN_TEMPERATURE else p1
    if p2.tempGet p2.edited > MAX_TEMPERATURE
    then p2.tempSet p2.edited MAX_TEMPERATURE else p2

/-! ## PID controller

lib/pid.hpp is not under src/; only its caller (heating.hpp) is.  The
controller is modelled from the spec. -/

/-- Modelled from the spec: lib/pid.hpp (class lib::Pid) is missing from
the sources; this follows spec section 4.2.  State: gains, sample rate,
output clamp, integral accumulator and previous error. -/
structure Pid where
  kp : Int
  ki : Int
  kd : Int
  fs : Int
  out_max : Int
  integral : Int
  prev_error : Int
deriving DecidableEq

/-- Modelled from the spec: reset() zeroes the accumulators. -/
def Pid.reset (p : Pid) : Pid :=
  { p with integral := 0, prev_error := 0 }

/-- Modelled from the spec: set_constants stores the constants and resets
the accumulators. -/
def Pid.set_constants (_p : Pid) (kp ki kd fs out_max : Int) : Pid :=
  { kp := kp, ki := ki, kd := kd, fs := fs, out_max := out_max,
    integral := 0, prev_error := 0 }

/-- Modelled from the spec: process(measured, setpoint) with gain scale
1000, anti-windup by integral clamp, and output clamped to [0, out_max].
Returns the updated controller state and the output power in mW. -/
def Pid.process (p : Pid) (measured setpoint : Int) : Pid × Int :=
  let error := setpoint - measured
  let integral0 := p.integral + Int.tdiv error p.fs
  let integral :=
    if p.ki * integral0 > p.out_max then Int.tdiv p.out_max p.ki
    else if p.ki * integral0 < -p.out_max then -(Int.tdiv p.out_max p.ki)
    else integral0
  let derivative := (error - p.prev_error) * p.fs
  let u := Int.tdiv (p.kp * error) 1000 + Int.tdiv (p.ki * integral) 1000 +
           Int.tdiv (p.kd * derivative) 1000
  let u1 := if u < 0 then 0 else if u > p.out_max then p.out_max else u
  ({ p with integral := integral, prev_error := error }, u1)

/-! ## Heating cycle engine (src/src/heating.hpp) -/

/-- Modelled from the spec: board/clock.hpp is not under src/; the spec
fixes the simulated clock at CORE_FREQ = 1000000 Hz. -/
def CORE_FREQ : Int := 1000000

def PERIOD_TIME_MS : Int := 150

def STANDBY_TIME_MS : Int := 30000

def PID_K_PROPORTIONAL : Int := 700

def PID_K_INTEGRAL : Int := 200

def PID_K_DERIVATE : Int := 100

def HEATING_POWER_MAX : Int := 40 * 1000

def IDLE_MIN_TIME_MS : Int := 8

def STABILIZE_TIME_MS : Int := 2

def HEATING_MIN_POWER_MW : Int := 100

def PEN_MAX_CURRENT_MA : Int := 6000

def PEN_RESISTANCE_SHORTED : Int := 500

def PEN_RESISTANCE_MIN : Int := 1500

def PEN_RESISTANCE_MAX : Int := 2500

def PEN_RESISTANCE_BROKEN : Int := 100000

inductive HeatingElementStatus where
  | UNKNOWN
  | OK
  | SHORTED
  | LOW_RESISTANCE
  | HIGH_RESISTANCE
  | BROKEN
deriving DecidableEq

inductive PenSensorStatus where
  | UNKNOWN
  | OK
  | BROKEN
  | SHORTED
deriving DecidableEq

inductive HeatState where
  | STOP
  | START
  | HEATING
  | STABILIZE
  | IDLE
deriving DecidableEq

/-- Which ADC measurement the engine has started (board::adc context). -/
inductive AdcMode where
  | off
  | heat
  | idle
deriving DecidableEq

/-- Readings the board::adc singleton exposes to one process() call:
whether the outstanding measurement is done, and the measured values. -/
structure AdcInput where
  done : Bool
  cpu_voltage : Int
  supply_voltage : Int
  pen_current : Int
  cpu_temperature : Int
  pen_temperature : Int
  pen_sensor_ok : Bool
deriving DecidableEq

/-- State of class Heating, plus the board singletons it drives: heater_on
is the board::heater GPIO, adc_mode the measurement context the engine
started on board::adc. -/
structure Heating where
  preset : Preset
  pid : Pid
  uptime_ticks : Int
  power_uwpt : Int
  requested_power_uwpt : Int
  energy_uwt : Int
  steady_ticks : Int
  period_ticks : Int
  remaining_ticks : Int
  measure_ticks : Int
  measurements_count : Int
  requested_power_mw : Int
  cpu_voltage_mv_heat : Int
  cpu_voltage_mv_idle : Int
  supply_voltage_mv_heat : Int
  supply_voltage_mv_idle : Int
  supply_voltage_mv_drop : Int
  pen_current_ma_heat : Int
  pen_current_ma_idle : Int
  pen_resistance_mo : Int
  pen_temperature_mc : Int
  cpu_temperature_mc : Int
  average_requested_power : Int
  average_requested_power_short : Int
  state : HeatState
  heating_element_status : HeatingElementStatus
  pen_sensor_status : PenSensorStatus
  heater_on : Bool
  adc_mode : AdcMode
deriving DecidableEq

/-- Initial engine state: C++ member initializers, after init() configured
the PID constants (1000 / PERIOD_TIME_MS = 6 with C integer division). -/
def heatingInit : Heating :=
  { preset := presetInit
    pid := Pid.set_constants ⟨0, 0, 0, 0, 0, 0, 0⟩ PID_K_PROPORTIONAL PID_K_INTEGRAL
      PID_K_DERIVATE (Int.tdiv 1000 PERIOD_TIME_MS) HEATING_POWER_MAX
    uptime_ticks := 0
    power_uwpt := 0
    requested_power_uwpt := 0
    energy_uwt := 0
    steady_ticks := 0
    period_ticks := 0
    remaining_ticks := 0
    measure_ticks := 0
    measurements_count := 0
    requested_power_mw := 0
    cpu_voltage_mv_heat := 0
    cpu_voltage_mv_idle := 0
    supply_voltage_mv_heat := 0
    supply_voltage_mv_idle := 0
    supply_voltage_mv_drop := 0
    pen_current_ma_heat := 0
    pen_current_ma_idle := 0
    pen_resistance_mo := 0
    pen_temperature_mc := 0
    cpu_temperature_mc := 0
    average_requested_power := 0
    average_requested_power_short := 0
    state := HeatState.STOP
    heating_element_status := HeatingElementStatus.UNKNOWN
    pen_sensor_status := PenSensorStatus.UNKNOWN
    heater_on := false
    adc_mode := AdcMode.off }

def ms2ticks (time_ms : Int) : Int :=
  Int.tdiv (time_ms * CORE_FREQ) 1000

def Heating.get_energy_mwh (h : Heating) : Int :=
  Int.tdiv (Int.tdiv (Int.tdiv h.energy_uwt CORE_FREQ) 1000) 3600

def Heating.get_steady_ms (h : Heating) : Int :=
  Int.tdiv h.steady_ticks (Int.tdiv CORE_FREQ 1000)

def Heating.get_real_pen_temperature_mc (h : Heating) : Int :=
  h.cpu_temperature_mc + h.pen_temperature_mc

def Heating.get_power_mw (h : Heating) : Int :=
  Int.tdiv (Int.tdiv h.power_uwpt h.period_ticks) 1000

def Heating.get_pen_resistance_mo (h : Heating) : Int :=
  h.pen_resistance_mo

def Heating.getHeatingElementStatus (h : Heating) : HeatingElementStatus :=
  h.heating_element_status

def Heating.getPenSensorStatus (h : Heating) : PenSensorStatus :=
  h.pen_sensor_status

/-- Heating::start.  Requested power comes from the PID when the pen
sensor is OK; otherwise the PID is reset and the power is 0. -/
def Heating.start (h : Heating) : Heating :=
  let pw : Pid × Int :=
    if h.getPenSensorStatus ≠ PenSensorStatus.OK then (h.pid.reset, 0)
    else h.pid.process h.get_real_pen_temperature_mc h.preset.get_temperature
  let period_ticks := PERIOD_TIME_MS * Int.tdiv CORE_FREQ 1000
  { h with pid := pw.1
           period_ticks := period_ticks
           remaining_ticks := h.remaining_ticks + period_ticks
           requested_power_mw := pw.2
           requested_power_uwpt := pw.2 * period_ticks * 1000
           state := HeatState.START }

/-- Heating::_state_stop. -/
def Heating.state_stop (h : Heating) : Heating :=
  if h.getPenSensorStatus ≠ PenSensorStatus.OK ∨
     h.getHeatingElementStatus = HeatingElementStatus.SHORTED ∨
     h.getHeatingElementStatus = HeatingElementStatus.BROKEN ∨
     h.get_steady_ms > STANDBY_TIME_MS
  then { h with preset := h.preset.set_standby }
  else h

/-- Heating::_state_start. -/
def Heating.state_start (h : Heating) : Heating :=
  let h1 := { h with measure_ticks := 0, measurements_count := 0,
                     cpu_voltage_mv_heat := 0, supply_voltage_mv_heat := 0,
                     pen_current_ma_heat := 0, pen_current_ma_idle := 0,
                     power_uwpt := 0 }
  if h1.requested_power_mw < HEATING_MIN_POWER_MW then
    { h1 with adc_mode := AdcMode.idle, requested_power_mw := 0,
              requested_power_uwpt := 0, steady_ticks := 0,
              state := HeatState.IDLE }
  else
    let avg_short := Int.tdiv (h1.average_requested_power_short * 2 + h1.requested_power_mw) 3
    let avg_long := Int.tdiv (h1.average_requested_power * 9 + h1.requested_power_mw) 10
    let derivate := avg_short - avg_long
    let h2 := { h1 with average_requested_power_short := avg_short,
                        average_requested_power := avg_long }
    let h3 := if derivate > 150 ∨ derivate < -200 then { h2 with steady_ticks := 0 } else h2
    { h3 with heater_on := true, adc_mode := AdcMode.heat,
              heating_element_status := HeatingElementStatus.UNKNOWN,
              pen_sensor_status := PenSensorStatus.UNKNOWN,
              state := HeatState.HEATING }

/-- Classification of the heating element from the measured resistance
(the if chain of Heating::_state_heating). -/
def classifyResistance (r : Int) : HeatingElementStatus :=
  if r < PEN_RESISTANCE_SHORTED then HeatingElementStatus.SHORTED
  else if r < PEN_RESISTANCE_MIN then HeatingElementStatus.LOW_RESISTANCE
  else if r > PEN_RESISTANCE_BROKEN then HeatingElementStatus.BROKEN
  else if r > PEN_RESISTANCE_MAX then HeatingElementStatus.HIGH_RESISTANCE
  else HeatingElementStatus.OK

/-- Accumulation of one completed heat-phase ADC sample: count it, sum the
measured values, add supply_voltage * pen_current * measure_ticks to the
energy of this period, reset measure_ticks.  The measure_ticks used for the
product already include the delta of the current call. -/
def Heating.heatAccum (h : Heating) (delta : Int) (adc : AdcInput) : Heating :=
  let mt := h.measure_ticks + delta
  { h with measurements_count := h.measurements_count + 1
           cpu_voltage_mv_heat := h.cpu_voltage_mv_heat + adc.cpu_voltage
           supply_voltage_mv_heat := h.supply_voltage_mv_heat + adc.supply_voltage
           pen_current_ma_heat := h.pen_current_ma_heat + adc.pen_current
           power_uwpt := h.power_uwpt + adc.supply_voltage * adc.pen_current * mt
           measure_ticks := 0 }

/-- End of the heat phase (the stop branch of Heating::_state_heating):
heater off, commit energy, average the sums, compensate and rectify the pen
current, compute the resistance and classify it, go to STABILIZE. -/
def Heating.heatFinalize (h : Heating) : Heating :=
  let h1 := { h with heater_on := false
                     energy_uwt := h.energy_uwt + h.power_uwpt
                     cpu_voltage_mv_heat := Int.tdiv h.cpu_voltage_mv_heat h.measurements_count
                     supply_voltage_mv_heat := Int.tdiv h.supply_voltage_mv_heat h.measurements_count
                     pen_current_ma_heat := Int.tdiv h.pen_current_ma_heat h.measurements_count }
  let h2 := { h1 with pen_current_ma_heat := h1.pen_current_ma_heat - h1.pen_current_ma_idle }
  let h3 := if h2.pen_current_ma_heat < 0
            then { h2 with pen_current_ma_heat := -h2.pen_current_ma_heat } else h2
  let h4 := if h3.pen_current_ma_heat > 10
            then { h3 with pen_resistance_mo :=
                     Int.tdiv (h3.supply_voltage_mv_heat * 1000) h3.pen_current_ma_heat }
            else { h3 with pen_resistance_mo := 1000000000 }
  let h5 := { h4 with supply_voltage_mv_drop := h4.supply_voltage_mv_heat - h4.supply_voltage_mv_idle }
  { h5 with heating_element_status := classifyResistance h5.pen_resistance_mo,
            state := HeatState.STABILIZE }

/-- Heating::_state_heating. -/
def Heating.state_heating (h : Heating) (delta : Int) (adc : AdcInput) : Heating :=
  if adc.done = false then { h with measure_ticks := h.measure_ticks + delta }
  else
    let h1 := h.heatAccum delta adc
    if Int.tdiv h1.pen_current_ma_heat h1.measurements_count > PEN_MAX_CURRENT_MA ∨
       h1.power_uwpt > h1.requested_power_uwpt ∨
       h1.remaining_ticks < ms2ticks (STABILIZE_TIME_MS + IDLE_MIN_TIME_MS)
    then h1.heatFinalize
    else { h1 with adc_mode := AdcMode.heat }

/-- Heating::_state_stabilize. -/
def Heating.state_stabilize (h : Heating) (delta : Int) : Heating :=
  let h1 := { h with measure_ticks := h.measure_ticks + delta }
  if h1.measure_ticks < ms2ticks STABILIZE_TIME_MS then h1
  else
    { h1 with adc_mode := AdcMode.idle, measure_ticks := 0, measurements_count := 0,
              cpu_voltage_mv_idle := 0, supply_voltage_mv_idle := 0,
              cpu_temperature_mc := 0, pen_temperature_mc := 0,
              state := HeatState.IDLE }

/-- Accumulation of one completed idle-phase ADC sample. -/
def Heating.idleAccum (h : Heating) (adc : AdcInput) : Heating :=
  { h with cpu_voltage_mv_idle := h.cpu_voltage_mv_idle + adc.cpu_voltage
           supply_voltage_mv_idle := h.supply_voltage_mv_idle + adc.supply_voltage
           pen_current_ma_idle := h.pen_current_ma_idle + adc.pen_current
           cpu_temperature_mc := h.cpu_temperature_mc + adc.cpu_temperature
           pen_temperature_mc := h.pen_temperature_mc + adc.pen_temperature
           measurements_count := h.measurements_count + 1 }

/-- End of the idle phase (the finishing branch of Heating::_state_idle):
average the sums, read the pen-sensor flag, go to STOP. -/
def Heating.idleFinalize (h : Heating) (adc : AdcInput) : Heating :=
  let h1 := { h with cpu_voltage_mv_idle := Int.tdiv h.cpu_voltage_mv_idle h.measurements_count
                     supply_voltage_mv_idle := Int.tdiv h.supply_voltage_mv_idle h.measurements_count
                     pen_current_ma_idle := Int.tdiv h.pen_current_ma_idle h.measurements_count
                     cpu_temperature_mc := Int.tdiv h.cpu_temperature_mc h.measurements_count
                     pen_temperature_mc := Int.tdiv h.pen_temperature_mc h.measurements_count }
  if adc.pen_sensor_ok then
    { h1 with pen_sensor_status := PenSensorStatus.OK, state := HeatState.STOP }
  else
    { h1 with pen_sensor_status := PenSensorStatus.BROKEN,
              heating_element_status := HeatingElementStatus.UNKNOWN,
              state := HeatState.STOP }

/-- Heating::_state_idle. -/
def Heating.state_idle (h : Heating) (adc : AdcInput) : Heating :=
  if adc.done = false then h
  else
    let h1 := h.idleAccum adc
    if h1.remaining_ticks > 0 then { h1 with adc_mode := AdcMode.idle }
    else h1.idleFinalize adc

/-- The tick bookkeeping at the top of Heating::process. -/
def Heating.tickAdvance (h : Heating) (delta : Int) : Heating :=
  { h with uptime_ticks := h.uptime_ticks + delta
           remaining_ticks := h.remaining_ticks - delta
           steady_ticks := h.steady_ticks + delta }

/-- Heating::process: advance the tick counters, dispatch on the state
(the C++ switch, written as an if chain over the five states), return the
new state and the boolean result (false only in STOP). -/
def Heating.process (h : Heating) (delta : Nat) (adc : AdcInput) : Heating × Bool :=
  let h1 := h.tickAdvance (delta : Int)
  if h1.state = HeatState.STOP then (h1.state_stop, false)
  else if h1.state = HeatState.START then (h1.state_start, true)
  else if h1.state = HeatState.HEATING then (h1.state_heating (delta : Int) adc, true)
  else if h1.state = HeatState.STABILIZE then (h1.state_stabilize (delta : Int), true)
  else (h1.state_idle adc, true)

/-! ## Runs of the engine

Per spec section 5, the host ticks process() repeatedly, calls start()
after process() returned false (i.e. in STOP), and the UI may mutate the
preset between process() calls. -/

/-- One host-side event of a simulated run. -/
inductive Event where
  | uiSelect (i : Int)
  | start
  | tick (delta : Nat) (adc : AdcInput)

/-- Effect of one event on the engine. -/
def Heating.execEvent (h : Heating) (e : Event) : Heating :=
  match e with
  | Event.uiSelect i => { h with preset := h.preset.select i }
  | Event.start => if h.state = HeatState.STOP then h.start else h
  | Event.tick d adc => (h.process d adc).1

/-- State of the engine after a list of host events, from the initial
state. -/
def execRun (evs : List Event) : Heating :=
  evs.foldl Heating.execEvent heatingInit

/-! ## Invariants and concrete inputs used by the claims -/

/-- Engine events whose ADC readings have non-negative supply voltage and
pen current (normal sensor orientation). -/
def goodEvent : Event → Prop
  | Event.tick _ adc => 0 ≤ adc.supply_voltage ∧ 0 ≤ adc.pen_current
  | _ => True

/-- Structural invariant of every run: the heater is only ever on in the
HEATING state, and the sample counter and measure tick counter are never
negative. -/
def InvB (h : Heating) : Prop :=
  (h.state = HeatState.HEATING ∨ h.heater_on = false) ∧
  0 ≤ h.measurements_count ∧ 0 ≤ h.measure_ticks

/-- An ADC input with no completed measurement. -/
def adcNone : AdcInput := ⟨false, 0, 0, 0, 0, 0, false⟩

/-- Completed idle sample in a cold environment (cpu at -30 degree C), so
that the PID requests power on the next period. -/
def adcIdleCold : AdcInput := ⟨true, 3300, 5000, 0, -30000, 0, true⟩

/-- Completed heat sample with a reversed current sensor (-30000 mA). -/
def adcHeatNeg : AdcInput := ⟨true, 3300, 5000, -30000, 0, 0, true⟩

/-- Completed idle sample at room temperature. -/
def adcIdleWarm : AdcInput := ⟨true, 3300, 5000, 0, 25000, 0, true⟩

/-- One full period from the initial state, ending in STOP: the first
start() requests no power (sensor UNKNOWN), the idle phase completes with
one cold sample and an OK sensor. -/
def runPeriodOne : List Event :=
  [Event.start, Event.tick 150000 adcNone, Event.tick 1 adcIdleCold]

/-- A second period appended to runPeriodOne: the PID now requests power,
the heat phase sees one reversed-current sample and ends out of time, the
period finishes through STABILIZE and IDLE back to STOP. -/
def runPeriodTwo : List Event :=
  runPeriodOne ++
    [Event.start, Event.tick 100 adcNone, Event.tick 140000 adcHeatNeg,
     Event.tick 3000 adcNone, Event.tick 7000 adcIdleWarm]

/-- A HEATING-state engine whose requested energy for the period is
15000000000 uW*ticks (100 mW over 150000 ticks). -/
def heatingC1 : Heating :=
  { heatingInit with state := HeatState.HEATING, heater_on := true,
                     adc_mode := AdcMode.heat, period_ticks := 150000,
                     remaining_ticks := 100000, requested_power_mw := 100,
                     requested_power_uwpt := 15000000000 }

/-- Completed heat sample at 5000 mV and 3000 mA: over 1000 ticks it
delivers exactly 15000000000 uW*ticks. -/
def adcC1 : AdcInput := ⟨true, 3300, 5000, 3000, 0, 0, true⟩

/-! ## Helper lemmas -/
/-! ## Claims about the preset store -/

/-- Claim C5: for every preset state, if is_standby() is true then
get_temperature() returns 0 (STANDBY_TEMPERATURE), and if is_standby() is
false then get_temperature() returns temperatures[selected]. -/
theorem claim_C5_standby_temperature (p : Preset) :
    (p.is_standby = true → p.get_temperature = 0) ∧
    (p.is_standby = false → p.get_temperature = p.tempGet p.selected) := by
  constructor <;> intro h <;>
    simp [Preset.is_standby] at h <;>
    simp [Preset.get_temperature, STANDBY_TEMPERATURE, h]

/-- Witness for C5 at the initial preset state. -/
theorem claim_C5_standby_temperature_witness :
    presetInit.is_standby = true ∧ presetInit.get_temperature = 0 :=
  ⟨rfl, (claim_C5_standby_temperature presetInit).1 rfl⟩

/-- Claim C6 (code evaluated at the failing input): the range guard
(preset < 0) && (preset >= PRESETS) in Preset::select and
Preset::edit_select is always false, so the out-of-range calls select(5)
and edit_select(5) are not no-ops: select(5) stores selected = 5 and clears
standby, and edit_select(5) stores edited = 5. -/
theorem claim_C6_select_guard_failing :
    ((presetInit.select 5).selected = 5 ∧ (presetInit.select 5).standby = false) ∧
    (presetInit.edit_select 5).edited = 5 := by
  decide

/-- Helper: edit_add on a state whose edit cursor is 0 clamps temp0. -/
lemma edit_add_at_zero (t0 t1 s : Int) (st : Bool) (d : Int) :
    (Preset.mk t0 t1 s 0 st).edit_add d =
      Preset.mk (if t0 + d < MIN_TEMPERATURE then MIN_TEMPERATURE
                 else if t0 + d > MAX_TEMPERATURE then MAX_TEMPERATURE else t0 + d)
        t1 s 0 st := by
  simp only [Preset.edit_add, Preset.tempGet, Preset.tempSet, NO_EDIT,
    MIN_TEMPERATURE, MAX_TEMPERATURE]
  norm_num
  split_ifs <;> simp_all

/-- Helper: edit_add on a state whose edit cursor is 1 clamps temp1. -/
lemma edit_add_at_one (t0 t1 s : Int) (st : Bool) (d : Int) :
    (Preset.mk t0 t1 s 1 st).edit_add d =
      Preset.mk t0
        (if t1 + d < MIN_TEMPERATURE then MIN_TEMPERATURE
         else if t1 + d > MAX_TEMPERATURE then MAX_TEMPERATURE else t1 + d)
        s 1 st := by
  simp only [Preset.edit_add, Preset.tempGet, Preset.tempSet, NO_EDIT,
    MIN_TEMPERATURE, MAX_TEMPERATURE]
  norm_num
  split_ifs <;> simp_all

/-- Claim C7: for i in [0, 2) the sequence edit_select(i); edit_add(delta);
edit_end() leaves temperatures[i] equal to the old value plus delta clamped
to [20000, 400000], clears the edit cursor, and leaves the other preset
temperature unchanged. -/
theorem claim_C7_edit_round_trip (p : Preset) (i delta : Int)
    (h0 : 0 ≤ i) (h1 : i < 2) :
    (((p.edit_select i).edit_add delta).edit_end).tempGet i =
      max MIN_TEMPERATURE (min MAX_TEMPERATURE (p.tempGet i + delta)) ∧
    (((p.edit_select i).edit_add delta).edit_end).is_editing = false ∧
    (∀ j, 0 ≤ j → j < 2 → j ≠ i →
      (((p.edit_select i).edit_add delta).edit_end).tempGet j = p.tempGet j) := by
  obtain ⟨t0, t1, s, e, st⟩ := p
  have hi : i = 0 ∨ i = 1 := by omega
  rcases hi with hi | hi <;> subst hi
  · have hsel : (Preset.mk t0 t1 s e st).edit_select 0 = Preset.mk t0 t1 s 0 st := by
      simp [Preset.edit_select, PRESETS]
    rw [hsel, edit_add_at_zero]
    refine ⟨?_, ?_, fun j hj0 hj1 hj2 => ?_⟩
    · simp only [Preset.edit_end, Preset.tempGet]
      norm_num
      split_ifs <;> simp_all [MIN_TEMPERATURE, MAX_TEMPERATURE] <;> omega
    · simp [Preset.edit_end, Preset.is_editing, NO_EDIT]
    · have hj : j = 1 := by omega
      subst hj
      simp [Preset.edit_end, Preset.tempGet]
  · have hsel : (Preset.mk t0 t1 s e st).edit_select 1 = Preset.mk t0 t1 s 1 st := by
      simp [Preset.edit_select, PRESETS]
    rw [hsel, edit_add_at_one]
    refine ⟨?_, ?_, fun j hj0 hj1 hj2 => ?_⟩
    · simp only [Preset.edit_end, Preset.tempGet]
      norm_num
      split_ifs <;> simp_all [MIN_TEMPERATURE, MAX_TEMPERATURE] <;> omega
    · simp [Preset.edit_end, Preset.is_editing, NO_EDIT]
    · have hj : j = 0 := by omega
      subst hj
      simp [Preset.edit_end, Preset.tempGet]

/-- Witness for C7: editing preset 0 of the initial store by +1000000
clamps to 400000 (scenario S6 of the spec). -/
theorem claim_C7_edit_round_trip_witness :
    (0 : Int) ≤ 0 ∧ (0 : Int) < 2 ∧
    (((presetInit.edit_select 0).edit_add 1000000).edit_end).tempGet 0 =
      max MIN_TEMPERATURE (min MAX_TEMPERATURE (presetInit.tempGet 0 + 1000000)) :=
  ⟨le_refl 0, by norm_num,
    (claim_C7_edit_round_trip presetInit 0 1000000 (le_refl 0) (by norm_num)).1⟩


/-- Truncating division is monotone in the dividend for a positive
divisor. -/
lemma tdiv_le_tdiv_right {a b c : Int} (hc : 0 < c) (h : a ≤ b) :
    Int.tdiv a c ≤ Int.tdiv b c := by
  rcases le_or_lt 0 a with ha | ha
  · have hb : 0 ≤ b := le_trans ha h
    rw [Int.tdiv_eq_ediv ha hc.le, Int.tdiv_eq_ediv hb hc.le]
    exact Int.ediv_le_ediv hc h
  · rcases le_or_lt 0 b with hb | hb
    · have h1 : 0 ≤ Int.tdiv (-a) c := Int.tdiv_nonneg (by omega) hc.le
      have h2 : Int.tdiv (-a) c = -(Int.tdiv a c) := Int.neg_tdiv a c
      have h3 : 0 ≤ Int.tdiv b c := Int.tdiv_nonneg hb hc.le
      omega
    · have key : Int.tdiv (-b) c ≤ Int.tdiv (-a) c := by
        rw [Int.tdiv_eq_ediv (by omega) hc.le, Int.tdiv_eq_ediv (by omega) hc.le]
        exact Int.ediv_le_ediv hc (by omega)
      have h2 : Int.tdiv (-a) c = -(Int.tdiv a c) := Int.neg_tdiv a c
      have h4 : Int.tdiv (-b) c = -(Int.tdiv b c) := Int.neg_tdiv b c
      omega

/-- Energy telemetry is monotone in the raw accumulator. -/
lemma get_energy_mwh_mono {h1 h2 : Heating} (h : h1.energy_uwt ≤ h2.energy_uwt) :
    h1.get_energy_mwh ≤ h2.get_energy_mwh := by
  unfold Heating.get_energy_mwh
  refine tdiv_le_tdiv_right (by norm_num) ?_
  refine tdiv_le_tdiv_right (by norm_num) ?_
  exact tdiv_le_tdiv_right (by norm_num [CORE_FREQ]) h

/-- Fields of _state_stop: only the preset can change. -/
lemma state_stop_fields (h : Heating) :
    h.state_stop.state = h.state ∧ h.state_stop.heater_on = h.heater_on ∧
    h.state_stop.measurements_count = h.measurements_count ∧
    h.state_stop.measure_ticks = h.measure_ticks ∧
    h.state_stop.power_uwpt = h.power_uwpt ∧
    h.state_stop.energy_uwt = h.energy_uwt := by
  unfold Heating.state_stop
  split_ifs <;> simp

/-- Fields of _state_start: the meters are reset, the result is IDLE with
the heater untouched or HEATING with the heater on, the energy accumulator
is untouched. -/
lemma state_start_fields (h : Heating) :
    (h.state_start.state = HeatState.IDLE ∧ h.state_start.heater_on = h.heater_on ∨
     h.state_start.state = HeatState.HEATING ∧ h.state_start.heater_on = true) ∧
    h.state_start.measurements_count = 0 ∧ h.state_start.measure_ticks = 0 ∧
    h.state_start.power_uwpt = 0 ∧ h.state_start.energy_uwt = h.energy_uwt := by
  simp only [Heating.state_start]
  split_ifs <;> simp

/-- Fields of heatFinalize: STABILIZE with the heater off, counters
untouched, the period energy committed to the total. -/
lemma heatFinalize_fields (h : Heating) :
    h.heatFinalize.state = HeatState.STABILIZE ∧ h.heatFinalize.heater_on = false ∧
    h.heatFinalize.measurements_count = h.measurements_count ∧
    h.heatFinalize.measure_ticks = h.measure_ticks ∧
    h.heatFinalize.power_uwpt = h.power_uwpt ∧
    h.heatFinalize.energy_uwt = h.energy_uwt + h.power_uwpt := by
  simp only [Heating.heatFinalize]
  split_ifs <;> simp

/-- The three branches of _state_heating. -/
lemma state_heating_cases (h : Heating) (delta : Int) (adc : AdcInput) :
    h.state_heating delta adc = { h with measure_ticks := h.measure_ticks + delta } ∨
    h.state_heating delta adc = (h.heatAccum delta adc).heatFinalize ∨
    h.state_heating delta adc = { h.heatAccum delta adc with adc_mode := AdcMode.heat } := by
  simp only [Heating.state_heating]
  split_ifs <;> simp

/-- Fields of _state_stabilize. -/
lemma state_stabilize_fields (h : Heating) (delta : Int) :
    (h.state_stabilize delta).heater_on = h.heater_on ∧
    (h.state_stabilize delta).energy_uwt = h.energy_uwt ∧
    (h.state_stabilize delta).power_uwpt = h.power_uwpt ∧
    ((h.state_stabilize delta).state = h.state ∧
       (h.state_stabilize delta).measurements_count = h.measurements_count ∧
       (h.state_stabilize delta).measure_ticks = h.measure_ticks + delta ∨
     (h.state_stabilize delta).state = HeatState.IDLE ∧
       (h.state_stabilize delta).measurements_count = 0 ∧
       (h.state_stabilize delta).measure_ticks = 0) := by
  simp only [Heating.state_stabilize]
  split_ifs <;> simp

/-- Fields of _state_idle. -/
lemma state_idle_fields (h : Heating) (adc : AdcInput) :
    (h.state_idle adc).heater_on = h.heater_on ∧
    (h.state_idle adc).energy_uwt = h.energy_uwt ∧
    (h.state_idle adc).power_uwpt = h.power_uwpt ∧
    (h.state_idle adc).measure_ticks = h.measure_ticks ∧
    ((h.state_idle adc).state = h.state ∧
       (h.state_idle adc).measurements_count = h.measurements_count ∨
     (h.state_idle adc).state = h.state ∧
       (h.state_idle adc).measurements_count = h.measurements_count + 1 ∨
     (h.state_idle adc).state = HeatState.STOP ∧
       (h.state_idle adc).measurements_count = h.measurements_count + 1) := by
  simp only [Heating.state_idle, Heating.idleAccum, Heating.idleFinalize]
  split_ifs <;> simp

/-- Fields of the tick bookkeeping. -/
lemma tickAdvance_fields (h : Heating) (d : Int) :
    (h.tickAdvance d).state = h.state ∧ (h.tickAdvance d).heater_on = h.heater_on ∧
    (h.tickAdvance d).measurements_count = h.measurements_count ∧
    (h.tickAdvance d).measure_ticks = h.measure_ticks ∧
    (h.tickAdvance d).power_uwpt = h.power_uwpt ∧
    (h.tickAdvance d).energy_uwt = h.energy_uwt :=
  ⟨rfl, rfl, rfl, rfl, rfl, rfl⟩

/-- Fields of start(). -/
lemma start_fields (h : Heating) :
    (h.start).state = HeatState.START ∧ (h.start).heater_on = h.heater_on ∧
    (h.start).measurements_count = h.measurements_count ∧
    (h.start).measure_ticks = h.measure_ticks ∧
    (h.start).power_uwpt = h.power_uwpt ∧ (h.start).energy_uwt = h.energy_uwt :=
  ⟨rfl, rfl, rfl, rfl, rfl, rfl⟩

/-- Fields of one heat-phase sample accumulation. -/
lemma heatAccum_fields (h : Heating) (delta : Int) (adc : AdcInput) :
    (h.heatAccum delta adc).state = h.state ∧
    (h.heatAccum delta adc).heater_on = h.heater_on ∧
    (h.heatAccum delta adc).measurements_count = h.measurements_count + 1 ∧
    (h.heatAccum delta adc).measure_ticks = 0 ∧
    (h.heatAccum delta adc).power_uwpt =
      h.power_uwpt + adc.supply_voltage * adc.pen_current * (h.measure_ticks + delta) ∧
    (h.heatAccum delta adc).energy_uwt = h.energy_uwt :=
  ⟨rfl, rfl, rfl, rfl, rfl, rfl⟩

/-- InvB holds initially. -/
lemma invB_init : InvB heatingInit :=
  ⟨Or.inr rfl, le_refl 0, le_refl 0⟩

/-- InvB is preserved by every host event. -/
lemma invB_step (h : Heating) (e : Event) (hi : InvB h) : InvB (h.execEvent e) := by
  obtain ⟨hh, hc, hm⟩ := hi
  cases e with
  | uiSelect i => exact ⟨hh, hc, hm⟩
  | start =>
    simp only [Heating.execEvent]
    split_ifs with hs
    · have hoff : h.heater_on = false := by
        rcases hh with h1 | h1
        · rw [hs] at h1; exact absurd h1 (by simp)
        · exact h1
      obtain ⟨f1, f2, f3, f4, f5, f6⟩ := start_fields h
      exact ⟨Or.inr (f2.trans hoff), f3 ▸ hc, f4 ▸ hm⟩
    · exact ⟨hh, hc, hm⟩
  | tick d adc =>
    have hd : (0 : Int) ≤ (d : Int) := Int.natCast_nonneg d
    simp only [Heating.execEvent, Heating.process, Heating.tickAdvance]
    set X : Heating := { h with uptime_ticks := h.uptime_ticks + (d : Int),
                                remaining_ticks := h.remaining_ticks - (d : Int),
                                steady_ticks := h.steady_ticks + (d : Int) } with hX
    have hXs : X.state = h.state := rfl
    have hXh : X.heater_on = h.heater_on := rfl
    have hXc : X.measurements_count = h.measurements_count := rfl
    have hXm : X.measure_ticks = h.measure_ticks := rfl
    split_ifs with h1 h2 h3 h4
    · obtain ⟨f1, f2, f3, f4, f5, f6⟩ := state_stop_fields X
      have hoff : h.heater_on = false := by
        rcases hh with hx | hx
        · rw [hXs] at h1; rw [h1] at hx; exact absurd hx (by simp)
        · exact hx
      exact ⟨Or.inr (by rw [f2, hXh, hoff]), by rw [f3, hXc]; exact hc, by rw [f4, hXm]; exact hm⟩
    · obtain ⟨f1, f3, f4, f5, f6⟩ := state_start_fields X
      refine ⟨?_, by rw [f3], by rw [f4]⟩
      rcases f1 with ⟨fa, fb⟩ | ⟨fa, fb⟩
      · have hoff : h.heater_on = false := by
          rcases hh with hx | hx
          · rw [hXs] at h2; rw [h2] at hx; exact absurd hx (by simp)
          · exact hx
        exact Or.inr (by rw [fb, hXh, hoff])
      · exact Or.inl fa
    · rcases state_heating_cases X (d : Int) adc with hcase | hcase | hcase <;> rw [hcase]
      · exact ⟨Or.inl (by rw [hXs] at h3; exact h3), by rw [hXc]; exact hc,
          by show 0 ≤ X.measure_ticks + (d : Int); rw [hXm]; omega⟩
      · obtain ⟨f1, f2, f3, f4, f5, f6⟩ := heatFinalize_fields (X.heatAccum (d : Int) adc)
        obtain ⟨g1, g2, g3, g4, g5, g6⟩ := heatAccum_fields X (d : Int) adc
        exact ⟨Or.inr f2, by rw [f3, g3, hXc]; omega, by rw [f4, g4]⟩
      · obtain ⟨g1, g2, g3, g4, g5, g6⟩ := heatAccum_fields X (d : Int) adc
        refine ⟨Or.inl ?_, ?_, ?_⟩
        · show (X.heatAccum (d : Int) adc).state = HeatState.HEATING
          rw [g1, hXs]; exact h3
        · show 0 ≤ (X.heatAccum (d : Int) adc).measurements_count
          rw [g3, hXc]; omega
        · show 0 ≤ (X.heatAccum (d : Int) adc).measure_ticks
          rw [g4]
    · obtain ⟨f1, f2, f3, f4⟩ := state_stabilize_fields X (d : Int)
      have hoff : h.heater_on = false := by
        rcases hh with hx | hx
        · rw [hXs] at h4; rw [h4] at hx; exact absurd hx (by simp)
        · exact hx
      rcases f4 with ⟨fa, fb, fc⟩ | ⟨fa, fb, fc⟩
      · exact ⟨Or.inr (by rw [f1, hXh, hoff]), by rw [fb, hXc]; exact hc,
          by rw [fc, hXm]; omega⟩
      · exact ⟨Or.inr (by rw [f1, hXh, hoff]), by rw [fb], by rw [fc]⟩
    · obtain ⟨f1, f2, f3, f4, f5⟩ := state_idle_fields X adc
      have hoff : h.heater_on = false := by
        have hni : h.state = HeatState.IDLE := by
          cases hq : h.state <;> simp_all
        rcases hh with hx | hx
        · rw [hni] at hx; exact absurd hx (by simp)
        · exact hx
      rcases f5 with ⟨fa, fb⟩ | ⟨fa, fb⟩ | ⟨fa, fb⟩ <;>
        exact ⟨Or.inr (by rw [f1, hXh, hoff]), by rw [fb, hXc]; omega, by rw [f4, hXm]; exact hm⟩

/-- InvB is preserved along any event list. -/
lemma invB_foldl (evs : List Event) (h : Heating) (hi : InvB h) :
    InvB (evs.foldl Heating.execEvent h) := by
  induction evs generalizing h with
  | nil => exact hi
  | cons e evs ih => exact ih _ (invB_step h e hi)

/-- InvB holds for every run state. -/
lemma invB_run (evs : List Event) : InvB (execRun evs) :=
  invB_foldl evs heatingInit invB_init

/-- Under non-negative supply voltage and pen current readings, the period
energy accumulator stays non-negative and the total energy accumulator
never decreases, at every single event. -/
lemma energy_step (h : Heating) (e : Event) (hi : InvB h) (hp : 0 ≤ h.power_uwpt)
    (hg : goodEvent e) :
    0 ≤ (h.execEvent e).power_uwpt ∧ h.energy_uwt ≤ (h.execEvent e).energy_uwt := by
  obtain ⟨hh, hc, hm⟩ := hi
  cases e with
  | uiSelect i => exact ⟨hp, le_refl _⟩
  | start =>
    simp only [Heating.execEvent]
    split_ifs with hs
    · obtain ⟨f1, f2, f3, f4, f5, f6⟩ := start_fields h
      exact ⟨f5 ▸ hp, f6 ▸ le_refl _⟩
    · exact ⟨hp, le_refl _⟩
  | tick d adc =>
    obtain ⟨hgv, hgc⟩ := hg
    have hd : (0 : Int) ≤ (d : Int) := Int.natCast_nonneg d
    simp only [Heating.execEvent, Heating.process, Heating.tickAdvance]
    set X : Heating := { h with uptime_ticks := h.uptime_ticks + (d : Int),
                                remaining_ticks := h.remaining_ticks - (d : Int),
                                steady_ticks := h.steady_ticks + (d : Int) } with hX
    have hXm : X.measure_ticks = h.measure_ticks := rfl
    have hXp : X.power_uwpt = h.power_uwpt := rfl
    have hXe : X.energy_uwt = h.energy_uwt := rfl
    have haccp : 0 ≤ (X.heatAccum (d : Int) adc).power_uwpt := by
      obtain ⟨g1, g2, g3, g4, g5, g6⟩ := heatAccum_fields X (d : Int) adc
      rw [g5, hXp, hXm]
      have : 0 ≤ adc.supply_voltage * adc.pen_current * (h.measure_ticks + (d : Int)) :=
        mul_nonneg (mul_nonneg hgv hgc) (by omega)
      omega
    split_ifs with h1 h2 h3 h4
    · obtain ⟨f1, f2, f3, f4, f5, f6⟩ := state_stop_fields X
      exact ⟨by rw [f5, hXp]; exact hp, by rw [f6, hXe]⟩
    · obtain ⟨f1, f3, f4, f5, f6⟩ := state_start_fields X
      exact ⟨by rw [f5], by rw [f6, hXe]⟩
    · rcases state_heating_cases X (d : Int) adc with hcase | hcase | hcase <;> rw [hcase]
      · exact ⟨hp, le_refl _⟩
      · obtain ⟨f1, f2, f3, f4, f5, f6⟩ := heatFinalize_fields (X.heatAccum (d : Int) adc)
        obtain ⟨g1, g2, g3, g4, g5, g6⟩ := heatAccum_fields X (d : Int) adc
        constructor
        · rw [f5]; exact haccp
        · rw [f6, g6, hXe]; omega
      · obtain ⟨g1, g2, g3, g4, g5, g6⟩ := heatAccum_fields X (d : Int) adc
        constructor
        · show 0 ≤ (X.heatAccum (d : Int) adc).power_uwpt
          exact haccp
        · show h.energy_uwt ≤ (X.heatAccum (d : Int) adc).energy_uwt
          rw [g6, hXe]
    · obtain ⟨f1, f2, f3, f4⟩ := state_stabilize_fields X (d : Int)
      exact ⟨by rw [f3, hXp]; exact hp, by rw [f2, hXe]⟩
    · obtain ⟨f1, f2, f3, f4, f5⟩ := state_idle_fields X adc
      exact ⟨by rw [f3, hXp]; exact hp, by rw [f2, hXe]⟩

/-- Energy monotonicity along a list of events with non-negative
readings. -/
lemma energy_foldl (evs : List Event) (h : Heating) (hi : InvB h)
    (hp : 0 ≤ h.power_uwpt) (hg : ∀ e ∈ evs, goodEvent e) :
    InvB (evs.foldl Heating.execEvent h) ∧
    0 ≤ (evs.foldl Heating.execEvent h).power_uwpt ∧
    h.energy_uwt ≤ (evs.foldl Heating.execEvent h).energy_uwt := by
  induction evs generalizing h with
  | nil => exact ⟨hi, hp, le_refl _⟩
  | cons e evs ih =>
    have hg1 : goodEvent e := hg e (by simp)
    have hgs : ∀ x ∈ evs, goodEvent x := fun x hx => hg x (by simp [hx])
    have hstep := energy_step h e hi hp hg1
    have hinv := invB_step h e hi
    have hrest := ih (h.execEvent e) hinv hstep.1 hgs
    exact ⟨hrest.1, hrest.2.1, le_trans hstep.2 hrest.2.2⟩

/-! ## Claims about the heating engine -/

/-- Claim C1 (amended: the energy condition in the source is strict).  In
the HEATING state, on every completed ADC sample the engine ends the heat
phase (heater off, transition to STABILIZE) if and only if, after
accumulating that sample, the running average pen current (sum divided by
measurements_count) exceeds PEN_MAX_CURRENT_MA, or power_uwpt is strictly
greater than requested_power_uwpt, or remaining_ticks is below the tick
equivalent of STABILIZE_TIME_MS + IDLE_MIN_TIME_MS (10 ms); otherwise it
starts another heat-phase measurement and remains in HEATING. -/
theorem claim_C1_heat_stop_condition (h : Heating) (delta : Int) (adc : AdcInput)
    (hstate : h.state = HeatState.HEATING) (hdone : adc.done = true) :
    ((h.state_heating delta adc).state = HeatState.STABILIZE ∧
       (h.state_heating delta adc).heater_on = false ↔
     Int.tdiv (h.heatAccum delta adc).pen_current_ma_heat
         (h.heatAccum delta adc).measurements_count > PEN_MAX_CURRENT_MA ∨
       (h.heatAccum delta adc).power_uwpt > (h.heatAccum delta adc).requested_power_uwpt ∨
       (h.heatAccum delta adc).remaining_ticks <
         ms2ticks (STABILIZE_TIME_MS + IDLE_MIN_TIME_MS)) ∧
    (¬(Int.tdiv (h.heatAccum delta adc).pen_current_ma_heat
         (h.heatAccum delta adc).measurements_count > PEN_MAX_CURRENT_MA ∨
       (h.heatAccum delta adc).power_uwpt > (h.heatAccum delta adc).requested_power_uwpt ∨
       (h.heatAccum delta adc).remaining_ticks <
         ms2ticks (STABILIZE_TIME_MS + IDLE_MIN_TIME_MS)) →
      (h.state_heating delta adc).state = HeatState.HEATING ∧
      (h.state_heating delta adc).adc_mode = AdcMode.heat) := by
  have hcase : h.state_heating delta adc =
      if Int.tdiv (h.heatAccum delta adc).pen_current_ma_heat
           (h.heatAccum delta adc).measurements_count > PEN_MAX_CURRENT_MA ∨
         (h.heatAccum delta adc).power_uwpt > (h.heatAccum delta adc).requested_power_uwpt ∨
         (h.heatAccum delta adc).remaining_ticks <
           ms2ticks (STABILIZE_TIME_MS + IDLE_MIN_TIME_MS)
      then (h.heatAccum delta adc).heatFinalize
      else { h.heatAccum delta adc with adc_mode := AdcMode.heat } := by
    simp [Heating.state_heating, hdone]
  by_cases hstop : Int.tdiv (h.heatAccum delta adc).pen_current_ma_heat
      (h.heatAccum delta adc).measurements_count > PEN_MAX_CURRENT_MA ∨
    (h.heatAccum delta adc).power_uwpt > (h.heatAccum delta adc).requested_power_uwpt ∨
    (h.heatAccum delta adc).remaining_ticks <
      ms2ticks (STABILIZE_TIME_MS + IDLE_MIN_TIME_MS)
  · rw [hcase, if_pos hstop]
    obtain ⟨f1, f2, f3, f4, f5, f6⟩ := heatFinalize_fields (h.heatAccum delta adc)
    exact ⟨by simp [f1, f2, hstop], fun hcon => absurd hstop hcon⟩
  · rw [hcase, if_neg hstop]
    obtain ⟨g1, g2, g3, g4, g5, g6⟩ := heatAccum_fields h delta adc
    refine ⟨⟨?_, fun hx => absurd hx hstop⟩, fun hx => ⟨?_, rfl⟩⟩
    · rintro ⟨hs, hhe⟩
      have hx : (h.heatAccum delta adc).state = HeatState.STABILIZE := hs
      rw [g1, hstate] at hx
      exact absurd hx (by simp)
    · show (h.heatAccum delta adc).state = HeatState.HEATING
      rw [g1, hstate]

/-- Witness for C1 at a concrete HEATING state whose heat phase ends by
over-time (remaining_ticks below 10 ms worth of ticks). -/
theorem claim_C1_heat_stop_condition_witness :
    ({ heatingC1 with remaining_ticks := 5000 } : Heating).state = HeatState.HEATING ∧
    adcC1.done = true ∧
    (({ heatingC1 with remaining_ticks := 5000 } : Heating).state_heating 1000 adcC1).state
      = HeatState.STABILIZE ∧
    (({ heatingC1 with remaining_ticks := 5000 } : Heating).state_heating 1000 adcC1).heater_on
      = false := by
  have hthm := claim_C1_heat_stop_condition
    ({ heatingC1 with remaining_ticks := 5000 } : Heating) 1000 adcC1 rfl rfl
  have hcond := hthm.1.mpr (Or.inr (Or.inr (by decide)))
  exact ⟨rfl, rfl, hcond.1, hcond.2⟩

/-- Claim C1 counterexample: the claim as stated (with the non-strict
energy condition power_uwpt >= requested_power_uwpt) is false.  At a
HEATING state that reaches exactly its requested energy, the non-strict
condition holds, yet the engine keeps the heater on and remains in
HEATING, because the source compares with strict >. -/
theorem claim_C1_heat_stop_counterexample :
    heatingC1.state = HeatState.HEATING ∧ adcC1.done = true ∧
    (heatingC1.heatAccum 1000 adcC1).power_uwpt ≥
      (heatingC1.heatAccum 1000 adcC1).requested_power_uwpt ∧
    (heatingC1.state_heating 1000 adcC1).state = HeatState.HEATING ∧
    (heatingC1.state_heating 1000 adcC1).heater_on = true := by
  decide

/-- Claim C2: after every heating phase the heating-element status is the
classification of the freshly computed pen_resistance_mo value R: SHORTED
for R < 500, LOW_RESISTANCE for 500 <= R < 1500, BROKEN for R > 100000,
HIGH_RESISTANCE for 2500 < R <= 100000, OK for 1500 <= R <= 2500; with the
eight boundary values 499, 500, 1499, 1500, 2500, 2501, 100000, 100001
classified as listed. -/
theorem claim_C2_resistance_classification :
    (∀ h : Heating, (h.heatFinalize).heating_element_status =
      classifyResistance ((h.heatFinalize).pen_resistance_mo)) ∧
    (∀ r : Int,
      (r < 500 → classifyResistance r = HeatingElementStatus.SHORTED) ∧
      (500 ≤ r → r < 1500 → classifyResistance r = HeatingElementStatus.LOW_RESISTANCE) ∧
      (r > 100000 → classifyResistance r = HeatingElementStatus.BROKEN) ∧
      (2500 < r → r ≤ 100000 → classifyResistance r = HeatingElementStatus.HIGH_RESISTANCE) ∧
      (1500 ≤ r → r ≤ 2500 → classifyResistance r = HeatingElementStatus.OK)) ∧
    classifyResistance 499 = HeatingElementStatus.SHORTED ∧
    classifyResistance 500 = HeatingElementStatus.LOW_RESISTANCE ∧
    classifyResistance 1499 = HeatingElementStatus.LOW_RESISTANCE ∧
    classifyResistance 1500 = HeatingElementStatus.OK ∧
    classifyResistance 2500 = HeatingElementStatus.OK ∧
    classifyResistance 2501 = HeatingElementStatus.HIGH_RESISTANCE ∧
    classifyResistance 100000 = HeatingElementStatus.HIGH_RESISTANCE ∧
    classifyResistance 100001 = HeatingElementStatus.BROKEN := by
  refine ⟨?_, ?_, by decide, by decide, by decide, by decide, by decide, by decide,
    by decide, by decide⟩
  · intro h
    simp only [Heating.heatFinalize]
  · intro r
    refine ⟨fun h1 => ?_, fun h1 h2 => ?_, fun h1 => ?_, fun h1 h2 => ?_, fun h1 h2 => ?_⟩ <;>
      · unfold classifyResistance PEN_RESISTANCE_SHORTED PEN_RESISTANCE_MIN
          PEN_RESISTANCE_MAX PEN_RESISTANCE_BROKEN
        split_ifs <;> first | rfl | (exfalso; omega)

/-- Witness for C2 at the boundary value 1500 (nominal resistance). -/
theorem claim_C2_resistance_classification_witness :
    (1500 : Int) ≤ 1500 ∧ (1500 : Int) ≤ 2500 ∧
    classifyResistance 1500 = HeatingElementStatus.OK :=
  ⟨by decide, by decide,
    ((claim_C2_resistance_classification.2.1 1500).2.2.2.2) (by decide) (by decide)⟩

/-- In STOP, process() runs _state_stop on the tick-advanced state and
returns false. -/
lemma process_stop_eq (h : Heating) (d : Nat) (adc : AdcInput)
    (hs : h.state = HeatState.STOP) :
    h.process d adc = ((h.tickAdvance (d : Int)).state_stop, false) := by
  simp [Heating.process, Heating.tickAdvance, hs]

/-- Claim C3: whenever process is called in the STOP state, the preset is
forced into standby (set_standby) if the pen sensor status is not OK, or
the heating-element status is SHORTED or BROKEN, or get_steady_ms()
exceeds STANDBY_TIME_MS = 30000 ms; if none of these holds the preset is
left unchanged; in either case process returns false. -/
theorem claim_C3_stop_forces_standby (h : Heating) (d : Nat) (adc : AdcInput)
    (hs : h.state = HeatState.STOP) :
    (h.process d adc).2 = false ∧
    ((h.tickAdvance (d : Int)).getPenSensorStatus ≠ PenSensorStatus.OK ∨
      (h.tickAdvance (d : Int)).getHeatingElementStatus = HeatingElementStatus.SHORTED ∨
      (h.tickAdvance (d : Int)).getHeatingElementStatus = HeatingElementStatus.BROKEN ∨
      (h.tickAdvance (d : Int)).get_steady_ms > STANDBY_TIME_MS →
      (h.process d adc).1.preset = h.preset.set_standby) ∧
    (¬((h.tickAdvance (d : Int)).getPenSensorStatus ≠ PenSensorStatus.OK ∨
      (h.tickAdvance (d : Int)).getHeatingElementStatus = HeatingElementStatus.SHORTED ∨
      (h.tickAdvance (d : Int)).getHeatingElementStatus = HeatingElementStatus.BROKEN ∨
      (h.tickAdvance (d : Int)).get_steady_ms > STANDBY_TIME_MS) →
      (h.process d adc).1.preset = h.preset) := by
  rw [process_stop_eq h d adc hs]
  refine ⟨rfl, fun hcond => ?_, fun hcond => ?_⟩
  · show ((h.tickAdvance (d : Int)).state_stop).preset = h.preset.set_standby
    unfold Heating.state_stop
    rw [if_pos hcond]
    rfl
  · show ((h.tickAdvance (d : Int)).state_stop).preset = h.preset
    unfold Heating.state_stop
    rw [if_neg hcond]
    rfl

/-- Witness for C3: from the initial state (sensor UNKNOWN), process
returns false and forces the preset into standby. -/
theorem claim_C3_stop_forces_standby_witness :
    (heatingInit.process 0 adcNone).2 = false ∧
    (heatingInit.process 0 adcNone).1.preset = heatingInit.preset.set_standby := by
  have hthm := claim_C3_stop_forces_standby heatingInit 0 adcNone rfl
  exact ⟨hthm.1, hthm.2.1 (Or.inl (by decide))⟩

/-- Claim C4: on every call to start(), if the pen sensor status is not OK
then the PID is reset and the requested power is zero (both the mW and the
uW*ticks forms); otherwise the requested power is the output of
pid.process(real pen temperature, preset temperature). -/
theorem claim_C4_start_requested_power (h : Heating) :
    (h.getPenSensorStatus ≠ PenSensorStatus.OK →
      (h.start).pid = h.pid.reset ∧ (h.start).requested_power_mw = 0 ∧
      (h.start).requested_power_uwpt = 0) ∧
    (h.getPenSensorStatus = PenSensorStatus.OK →
      (h.start).requested_power_mw =
        (h.pid.process h.get_real_pen_temperature_mc h.preset.get_temperature).2 ∧
      (h.start).pid =
        (h.pid.process h.get_real_pen_temperature_mc h.preset.get_temperature).1) := by
  constructor <;> intro hs <;> simp [Heating.start, hs]

/-- Witness for C4 at the initial state, whose sensor status is the
initial UNKNOWN. -/
theorem claim_C4_start_requested_power_witness :
    heatingInit.getPenSensorStatus ≠ PenSensorStatus.OK ∧
    ((heatingInit.start).pid = heatingInit.pid.reset ∧
     (heatingInit.start).requested_power_mw = 0 ∧
     (heatingInit.start).requested_power_uwpt = 0) :=
  ⟨by decide, (claim_C4_start_requested_power heatingInit).1 (by decide)⟩

/-- Claim C8: in every run of the engine (start() scheduled by the host
after process() returned false, ticks and UI preset changes arbitrary),
the engine is never in STABILIZE, IDLE, or STOP with the heater on: the
heater turned on by the START handler is off again before the engine
leaves HEATING. -/
theorem claim_C8_heater_discipline (evs : List Event)
    (hst : (execRun evs).state = HeatState.STABILIZE ∨
           (execRun evs).state = HeatState.IDLE ∨
           (execRun evs).state = HeatState.STOP) :
    (execRun evs).heater_on = false := by
  have hi := invB_run evs
  rcases hi.1 with hx | hx
  · rcases hst with hy | hy | hy <;> rw [hx] at hy <;> exact absurd hy (by simp)
  · exact hx

/-- Witness for C8 at the empty run (the initial state is STOP with the
heater off). -/
theorem claim_C8_heater_discipline_witness :
    (execRun []).state = HeatState.STOP ∧ (execRun []).heater_on = false :=
  ⟨rfl, claim_C8_heater_discipline [] (Or.inr (Or.inr rfl))⟩

/-- Claim C9 counterexample: with a reversed-current ADC sample (pen
current -30000 mA, anticipated by the source, which takes the absolute
value of the averaged current), the accumulated period energy is negative
and get_energy_mwh() decreases from one completed period (STOP state) to
the next: 0 mWh after the first period, -5 mWh after the second. -/
theorem claim_C9_energy_monotone_counterexample :
    (execRun runPeriodOne).state = HeatState.STOP ∧
    (execRun runPeriodTwo).state = HeatState.STOP ∧
    (execRun runPeriodOne).get_energy_mwh = 0 ∧
    (execRun runPeriodTwo).get_energy_mwh = -5 := by
  decide

/-- Claim C9 (amended: under non-negative supply-voltage and pen-current
readings).  For every run and every continuation of it whose ADC readings
have non-negative supply voltage and pen current, get_energy_mwh() never
decreases. -/
theorem claim_C9_energy_monotone (evs more : List Event)
    (hg : ∀ e ∈ evs, goodEvent e) (hg2 : ∀ e ∈ more, goodEvent e) :
    (execRun evs).get_energy_mwh ≤ (execRun (evs ++ more)).get_energy_mwh := by
  have h1 := energy_foldl evs heatingInit invB_init (le_refl 0) hg
  have h2 := energy_foldl more (execRun evs) h1.1 h1.2.1 hg2
  have hsplit : execRun (evs ++ more) = more.foldl Heating.execEvent (execRun evs) := by
    simp [execRun, List.foldl_append]
  rw [hsplit]
  exact get_energy_mwh_mono h2.2.2

/-- Witness for C9 on a one-period run with non-negative readings. -/
theorem claim_C9_energy_monotone_witness :
    (∀ e ∈ [Event.start, Event.tick 150000 adcNone], goodEvent e) ∧
    (∀ e ∈ [Event.tick 1 adcIdleWarm], goodEvent e) ∧
    (execRun [Event.start, Event.tick 150000 adcNone]).get_energy_mwh ≤
      (execRun ([Event.start, Event.tick 150000 adcNone] ++
        [Event.tick 1 adcIdleWarm])).get_energy_mwh := by
  have hgood1 : ∀ e ∈ [Event.start, Event.tick 150000 adcNone], goodEvent e := by
    intro e he
    fin_cases he
    · exact trivial
    · exact ⟨by norm_num [adcNone], by norm_num [adcNone]⟩
  have hgood2 : ∀ e ∈ [Event.tick 1 adcIdleWarm], goodEvent e := by
    intro e he
    fin_cases he
    exact ⟨by norm_num [adcIdleWarm], by norm_num [adcIdleWarm]⟩
  exact ⟨hgood1, hgood2, claim_C9_energy_monotone _ _ hgood1 hgood2⟩

/-- Claim C10: at every reachable engine state the sample counter is
non-negative, and after accumulating a completed ADC sample (which is the
only way the heat phase or the idle phase reaches its finalization, where
the sums are divided by measurements_count) the counter is at least 1, so
no division by measurements_count divides by zero. -/
theorem claim_C10_division_safety (evs : List Event) (d : Int) (adc : AdcInput) :
    0 ≤ (execRun evs).measurements_count ∧
    1 ≤ ((execRun evs).heatAccum d adc).measurements_count ∧
    1 ≤ ((execRun evs).idleAccum adc).measurements_count := by
  have hi := invB_run evs
  have hc := hi.2.1
  obtain ⟨g1, g2, g3, g4, g5, g6⟩ := heatAccum_fields (execRun evs) d adc
  refine ⟨hc, ?_, ?_⟩
  · rw [g3]; omega
  · show 1 ≤ (execRun evs).measurements_count + 1
    omega
